import Mathlib

/-! Verification of the pytucanos binding layer (`src/lib.rs`, `src/mesh.rs`,
`src/parallel.rs`): a shallow embedding of the argument validation, string
dispatch and array marshalling logic of the Python bindings, together with
models (taken from the design specification) of the parts of the underlying
`tucanos` engine that the bound functions delegate to. -/

namespace Pytucanos

/-- Errors surfaced to Python by the binding layer: `PyValueError`,
`PyRuntimeError`, or a Rust panic (as raised by the `unreachable!()`
placeholder branches). -/
inductive PyErr where
  | valueError (msg : String)
  | runtimeError (msg : String)
  | panicked
  deriving DecidableEq, Repr

/-- The smoothing variants of `tucanos::remesher::SmoothingType` that the
bindings can select. -/
inductive SmoothingType where
  | laplacian
  | laplacian2
  | avro
  deriving DecidableEq, Repr

/-- A two-dimensional `f64` numpy array as seen by the bindings: a shape
`(rows, cols)` plus row-major data.  Real numbers are idealised as rationals;
none of the embedded binding logic does any arithmetic on the entries. -/
structure Arr2 where
  rows : Nat
  cols : Nat
  data : List ℚ
  deriving DecidableEq, Repr

/-- The `smooth_type` dispatch of the sequential remesher binding
(`create_remesher!::remesh`, `src/lib.rs` lines 954-961): `"laplacian"` selects
`SmoothingType::Laplacian2`, `"nlopt"` hits an `unreachable!()` panic, and any
other string selects `SmoothingType::Avro`. -/
def seqSmoothType (s : String) : Except PyErr SmoothingType :=
  if s = "laplacian" then .ok .laplacian2
  else if s = "nlopt" then .error .panicked
  else .ok .avro

/-- The `smooth_type` dispatch of the parallel remesher binding
(`create_parallel_remesher!::remesh`, `src/parallel.rs` lines 113-121):
`"laplacian"` selects `Laplacian`, `"laplacian2"` selects `Laplacian2`,
`"nlopt"` hits an `unreachable!()` panic, and any other string selects `Avro`. -/
def parSmoothType (s : String) : Except PyErr SmoothingType :=
  if s = "laplacian" then .ok .laplacian
  else if s = "laplacian2" then .ok .laplacian2
  else if s = "nlopt" then .error .panicked
  else .ok .avro

/-- The sequential `remesh` entry point (`src/lib.rs` lines 931-988) over an
abstract remesher state `R`: the optional `smooth_type` string defaults to
`"laplacian"`, the dispatch runs first, and only then is the underlying
`Remesher::remesh` (the continuation `run`, which lives in the `tucanos`
crate) invoked on the state. -/
def seqRemesh {R : Type} (st : R) (smooth : Option String)
    (run : R → SmoothingType → R) : R × Except PyErr Unit :=
  match seqSmoothType (smooth.getD "laplacian") with
  | .error e => (st, .error e)
  | .ok sm => (run st sm, .ok ())

/-- The parallel `remesh` entry point (`src/parallel.rs` lines 69-162) over an
abstract parallel-remesher state `R`: the metric array shape is validated
against the vertex count `nverts` and the metric component count `metricN`
first, then the `smooth_type` string (defaulting to `"laplacian"`) is
dispatched, and only then does the underlying `ParallelRemesher::remesh` (the
continuation `run`, in the `tucanos` crate) touch the state and produce the
output mesh/info `M`. -/
def parRemesh {R M : Type} (st : R) (nverts metricN : Nat) (m : Arr2)
    (smooth : Option String) (run : R → SmoothingType → Arr2 → R × M) :
    R × Except PyErr M :=
  if m.rows ≠ nverts then (st, .error (.valueError "Invalid dimension 0"))
  else if m.cols ≠ metricN then (st, .error (.valueError "Invalid dimension 1"))
  else
    match parSmoothType (smooth.getD "laplacian") with
    | .error e => (st, .error e)
    | .ok sm =>
      let r := run st sm m
      (r.1, .ok r.2)

/-- The partitioning strategies of `tucanos::mesh_partition::PartitionType`
selectable from the bindings, each carrying the requested partition count. -/
inductive PartitionKind where
  | scotch (n : Nat)
  | metisKWay (n : Nat)
  | metisRecursive (n : Nat)
  | hilbert (n : Nat)
  deriving DecidableEq, Repr

/-- The `partition_type` string dispatch of the `ParallelRemesher` constructor
(`src/parallel.rs` lines 39-49). -/
def parsePartitionType (s : String) (n : Nat) : Except PyErr PartitionKind :=
  if s = "scotch" then .ok (.scotch n)
  else if s = "metis_kway" then .ok (.metisKWay n)
  else if s = "metis_recursive" then .ok (.metisRecursive n)
  else if s = "hilbert" then .ok (.hilbert n)
  else .error (.valueError
    "Invalid partition type: allowed values are scotch, metis_kway, metis_recursive")

/-- The `ParallelRemesher` constructor (`src/parallel.rs` lines 33-56) over an
abstract mesh `K` and remesher state `R`: the partition-type string is parsed
first; only on success is `ParallelRemesher::new` (the continuation `mk`, in
the `tucanos` crate, which performs the actual partitioning) invoked, with its
failure surfaced as a `PyRuntimeError`. -/
def newParallelRemesher {K R : Type} (mesh : K) (s : String) (n : Nat)
    (mk : K → PartitionKind → Except String R) : Except PyErr R :=
  match parsePartitionType s n with
  | .error e => .error e
  | .ok pt =>
    match mk mesh pt with
    | .error msg => .error (.runtimeError msg)
    | .ok r => .ok r

/-- The `Remesher` constructor (`create_remesher!::new`, `src/lib.rs` lines
641-664): the metric array shape is validated against the mesh vertex count
and the metric component count before `Remesher::new` (the continuation `mk`,
in the `tucanos` crate) is invoked. -/
def remesherNew {R : Type} (nverts metricN : Nat) (m : Arr2)
    (mk : Arr2 → Except String R) : Except PyErr R :=
  if m.rows ≠ nverts then .error (.valueError "Invalid dimension 0")
  else if m.cols ≠ metricN then .error (.valueError "Invalid dimension 1")
  else
    match mk m with
    | .error e => .error (.runtimeError e)
    | .ok r => .ok r

/-- The `elem_data_to_vertex_data` binding (`src/mesh.rs` lines 363-378,
`src/lib.rs` lines 311-326) over an abstract mesh state `M` (the method takes
`&mut self` because the underlying conversion may compute connectivity
caches): the row count is validated against the element count before
`SimplexMesh::elem_data_to_vertex_data` (the continuation `conv`, in the
`tucanos` crate) is invoked; the result is reshaped with the input's column
count. -/
def elemDataToVertexData {M : Type} (msh : M) (nelems : Nat) (arr : Arr2)
    (conv : M → Arr2 → M × Except String (List ℚ)) : M × Except PyErr Arr2 :=
  if arr.rows ≠ nelems then (msh, .error (.valueError "Invalid dimension 0"))
  else
    let r := conv msh arr
    match r.2 with
    | .error e => (r.1, .error (.runtimeError e))
    | .ok res => (r.1, .ok ⟨res.length / arr.cols, arr.cols, res⟩)

/-- The `vertex_data_to_elem_data` binding (`src/mesh.rs` lines 382-392,
`src/lib.rs` lines 330-340): the row count is validated against the vertex
count before the underlying conversion (the continuation `conv`) is invoked;
its error case is `unwrap()`ed in the binding, i.e. a panic. -/
def vertexDataToElemData {M : Type} (msh : M) (nverts : Nat) (arr : Arr2)
    (conv : M → Arr2 → M × Except String (List ℚ)) : M × Except PyErr Arr2 :=
  if arr.rows ≠ nverts then (msh, .error (.valueError "Invalid dimension 0"))
  else
    let r := conv msh arr
    match r.2 with
    | .error _ => (r.1, .error .panicked)
    | .ok res => (r.1, .ok ⟨res.length / arr.cols, arr.cols, res⟩)

/-- The `scale_metric` classmethod (`create_remesher!::scale_metric`,
`src/lib.rs` lines 706-745): the metric array shape is validated against the
mesh vertex count and metric component count before
`SimplexMesh::scale_metric` (the continuation `scale`, in the `tucanos`
crate) is invoked with the bounds and target element count. -/
def scaleMetric (nverts metricN : Nat) (m : Arr2) (hmin hmax : ℚ)
    (nelems : Nat) (scale : Arr2 → ℚ → ℚ → Nat → Except String (List ℚ)) :
    Except PyErr Arr2 :=
  if m.rows ≠ nverts then .error (.valueError "Invalid dimension 0")
  else if m.cols ≠ metricN then .error (.valueError "Invalid dimension 1")
  else
    match scale m hmin hmax nelems with
    | .error e => .error (.runtimeError e)
    | .ok res => .ok ⟨res.length / metricN, metricN, res⟩

/-- The `Mesh33::curvature_metric` binding (`src/mesh.rs` lines 819-860) over
an abstract geometry `G`: if a per-tag normal size array `h_n` is supplied
without `h_n_tags` the call is rejected; otherwise
`SimplexMesh::curvature_metric` (the continuation `compute`, in the `tucanos`
crate) is invoked with all parameters and the result reshaped to 6 columns. -/
def mesh33CurvatureMetric {G : Type} (geom : G) (rh beta t : ℚ)
    (hmin hmax : Option ℚ) (hn : Option (List ℚ)) (hnTags : Option (List Int))
    (compute : G → ℚ → ℚ → ℚ → Option ℚ → Option ℚ → Option (List ℚ) →
      Option (List Int) → Except String (List ℚ)) : Except PyErr Arr2 :=
  match hn with
  | some h =>
    match hnTags with
    | none => .error (.runtimeError "h_n_tags not given")
    | some tags =>
      match compute geom rh beta t hmin hmax (some h) (some tags) with
      | .error e => .error (.runtimeError e)
      | .ok res => .ok ⟨res.length / 6, 6, res⟩
  | none =>
    match compute geom rh beta t hmin hmax none none with
    | .error e => .error (.runtimeError e)
    | .ok res => .ok ⟨res.length / 6, 6, res⟩

/-- The `Mesh22::curvature_metric` binding (`src/mesh.rs` lines 1056-1095):
same `h_n`/`h_n_tags` gate as the 3D version; on success an optional `h_min`
lower bound is applied to every metric via `scale_with_bounds` (the
continuation `boundBelow`, in the `tucanos` crate) and the result is reshaped
to 3 columns. -/
def mesh22CurvatureMetric {G : Type} (geom : G) (rh beta t : ℚ)
    (hmin : Option ℚ) (hn : Option (List ℚ)) (hnTags : Option (List Int))
    (compute : G → ℚ → ℚ → ℚ → Option (List ℚ) → Option (List Int) →
      Except String (List ℚ))
    (boundBelow : ℚ → List ℚ → List ℚ) : Except PyErr Arr2 :=
  match hn with
  | some h =>
    match hnTags with
    | none => .error (.runtimeError "h_n_tags not given")
    | some tags =>
      match compute geom rh beta t (some h) (some tags) with
      | .error e => .error (.runtimeError e)
      | .ok res =>
        match hmin with
        | some hm => .ok ⟨(boundBelow hm res).length / 3, 3, boundBelow hm res⟩
        | none => .ok ⟨res.length / 3, 3, res⟩
  | none =>
    match compute geom rh beta t none none with
    | .error e => .error (.runtimeError e)
    | .ok res =>
      match hmin with
      | some hm => .ok ⟨(boundBelow hm res).length / 3, 3, boundBelow hm res⟩
      | none => .ok ⟨res.length / 3, 3, res⟩

/-- Modelled from the spec: an isotropic metric (`tucanos::metric::IsoMetric`,
outside this repository) is a single positive scalar size `h` defining the
target local element size; entries are idealised as real numbers (`f64` NaN
never arises for a positive size, so the binding's NaN guard never fires). -/
structure IsoMetric where
  h : ℝ
  deriving Inhabited

/-- Modelled from the spec: `volume(metric)` is the generalized volume of the
metric ellipsoid, `h ^ d` for an isotropic metric of size `h` in dimension
`d` (the `vol` method of `tucanos::metric::Metric`, outside this repository). -/
def IsoMetric.vol (d : Nat) (m : IsoMetric) : ℝ := m.h ^ d

/-- Modelled from the spec: `scale(m, factor)` rescales the principal sizes
isotropically by the given factor (the `scale` method of
`tucanos::metric::Metric`, outside this repository). -/
def IsoMetric.scale (m : IsoMetric) (s : ℝ) : IsoMetric := ⟨s * m.h⟩

/-- The Lp-norm exponent computed by `hessian_to_metric`
(`create_remesher!::hessian_to_metric`, `src/lib.rs` lines 685-689):
`-2 / (2 p + d)` when `p` is given, `0` when `p` is `None`. -/
noncomputable def hessianExponent (d : Nat) (p : Option Nat) : ℝ :=
  match p with
  | some p => -2 / (2 * p + d)
  | none => 0

/-- The per-vertex body of `hessian_to_metric` (`src/lib.rs` lines 691-698):
the metric is rescaled by `vol ^ exponent`.  The `is_nan` guard of the source
is not representable over the reals; it never fires for a metric of positive
volume. -/
noncomputable def hessianToMetricVert (d : Nat) (p : Option Nat)
    (m : IsoMetric) : IsoMetric :=
  m.scale (m.vol d ^ hessianExponent d p)

/-- The `hessian_to_metric` classmethod (`src/lib.rs` lines 666-701) for an
isotropic metric (one component per vertex, so the array is a list of sizes
and the column check `m.shape()[1] == N` holds by representation): the row
count is validated against the vertex count, then every vertex metric is
rescaled by `vol ^ exponent`. -/
noncomputable def hessianToMetric (d nverts : Nat) (hs : List ℝ)
    (p : Option Nat) : Except PyErr (List ℝ) :=
  if hs.length ≠ nverts then .error (.valueError "Invalid dimension 0")
  else .ok (hs.map fun h => (hessianToMetricVert d p ⟨h⟩).h)

/-- A 2D triangle mesh in the layout of the binding's `Mesh22`
(`create_mesh!`, `src/mesh.rs`): vertex coordinates, triangles given by three
vertex indices with an integer tag each, and tagged boundary/interface edges.
Coordinates are idealised as rationals.  Modelled from the spec (the
underlying `SimplexMesh` container lives in the `tucanos` crate, outside this
repository). -/
structure Mesh2 where
  verts : List (ℚ × ℚ)
  elems : List (Nat × Nat × Nat)
  etags : List Int
  faces : List (Nat × Nat)
  ftags : List Int
  deriving DecidableEq, Repr

/-- Coordinate lookup; out-of-range indices give the origin. -/
def vert (m : Mesh2) (i : Nat) : ℚ × ℚ := m.verts.getD i (0, 0)

/-- Modelled from the spec: the signed volume (area) of a triangle element,
half the cross product of two edge vectors; the element is non-degenerate and
positively oriented when this is `> 0`. -/
def elemVol (m : Mesh2) (e : Nat × Nat × Nat) : ℚ :=
  let p0 := vert m e.1
  let p1 := vert m e.2.1
  let p2 := vert m e.2.2
  ((p1.1 - p0.1) * (p2.2 - p0.2) - (p2.1 - p0.1) * (p1.2 - p0.2)) / 2

/-- The three edges (faces) of a triangle element. -/
def triFaces (e : Nat × Nat × Nat) : List (Nat × Nat) :=
  [(e.2.1, e.2.2), (e.2.2, e.1), (e.1, e.2.1)]

/-- Equality of edges up to orientation. -/
def sameEdge (a b : Nat × Nat) : Bool :=
  (a.1 == b.1 && a.2 == b.2) || (a.1 == b.2 && a.2 == b.1)

/-- The tags of the elements incident to a given edge. -/
def incidentTags (m : Mesh2) (f : Nat × Nat) : List Int :=
  (m.elems.zip m.etags).filterMap fun et =>
    if (triFaces et.1).any (fun g => sameEdge f g) then some et.2 else none

/-- Whether an edge appears in the mesh's tagged face list. -/
def taggedB (m : Mesh2) (f : Nat × Nat) : Bool :=
  m.faces.any fun g => sameEdge f g

/-- Whether all tags in a list coincide. -/
def allSame : List Int → Bool
  | [] => true
  | t :: ts => ts.all fun s => s == t

/-- Modelled from the spec: an edge must carry a tag exactly when it is a
boundary face (exactly one incident element) or separates two different
element tags. -/
def needsTag (l : List Int) : Bool := l.length == 1 || !allSame l

/-- All edges subject to the tagging invariant: the edges of every element,
plus every listed face (so that a tagged face incident to no element is also
checked). -/
def candidateFaces (m : Mesh2) : List (Nat × Nat) :=
  (m.elems.map triFaces).flatten ++ m.faces

/-- Modelled from the spec: the mesh validity check performed by `check()`
(`src/mesh.rs` lines 549-556, `src/lib.rs` lines 433-440, delegating to
`SimplexMesh::check` in the `tucanos` crate, outside this repository): every
element has strictly positive volume, and every candidate edge is tagged
exactly when the boundary-tag invariant requires it. -/
def meshCheck (m : Mesh2) : Bool :=
  (m.elems.all fun e => decide (0 < elemVol m e)) &&
  ((candidateFaces m).all fun f => taggedB m f == needsTag (incidentTags m f))

/-- Every element of the mesh has strictly positive volume. -/
def PositiveVols (m : Mesh2) : Prop := ∀ e ∈ m.elems, 0 < elemVol m e

/-- The boundary-tag invariant of the spec (section 3): an edge is tagged iff
it is a boundary face (exactly one incident element) or lies between two
elements of different tags; no other edge is tagged. -/
def BoundaryTagOk (m : Mesh2) : Prop :=
  ∀ f ∈ candidateFaces m,
    (taggedB m f = true ↔
      ((incidentTags m f).length = 1 ∨ allSame (incidentTags m f) = false))

/-- Corrupting the orientation of an element: swap its first two vertices. -/
def swapTri (e : Nat × Nat × Nat) : Nat × Nat × Nat := (e.2.1, e.1, e.2.2)

/-- The mesh with the orientation of element `k` corrupted. -/
def corruptElem (m : Mesh2) (k : Nat) : Mesh2 :=
  { m with elems := m.elems.set k (swapTri (m.elems.getD k (0, 0, 0))) }

/-- Whether a triangle element contains the vertex `v`. -/
def hasVert (e : Nat × Nat × Nat) (v : Nat) : Bool :=
  e.1 == v || e.2.1 == v || e.2.2 == v

/-- The total volume of the elements incident to vertex `v`. -/
def vertTotalWeight (m : Mesh2) (v : Nat) : ℚ :=
  ((m.elems.filter fun e => hasVert e v).map fun e => elemVol m e).sum

/-- Modelled from the spec: P0 → P1 field transfer
(`SimplexMesh::elem_data_to_vertex_data` in the `tucanos` crate, outside this
repository) — the value at a vertex is the volume-weighted average of the
values on its incident elements. -/
def elemToVertField (m : Mesh2) (f : List ℚ) (v : Nat) : ℚ :=
  (((m.elems.zip f).filter fun ef => hasVert ef.1 v).map
      fun ef => elemVol m ef.1 * ef.2).sum / vertTotalWeight m v

/-- The P0 → P1 conversion of a scalar field given per element. -/
def elemDataToVertexDataField (m : Mesh2) (f : List ℚ) : List ℚ :=
  (List.range m.verts.length).map (elemToVertField m f)

/-- Modelled from the spec: P1 → P0 field transfer
(`SimplexMesh::vertex_data_to_elem_data` in the `tucanos` crate, outside this
repository) — the value at an element center is the average of its vertex
values. -/
def vertexDataToElemDataField (m : Mesh2) (g : List ℚ) : List ℚ :=
  m.elems.map fun e => (g.getD e.1 0 + g.getD e.2.1 0 + g.getD e.2.2 0) / 3

/-- A unit square meshed by two positively oriented triangles with all four
boundary edges tagged; the standard valid test fixture. -/
def sqMesh : Mesh2 where
  verts := [(0, 0), (1, 0), (1, 1), (0, 1)]
  elems := [(0, 1, 2), (0, 2, 3)]
  etags := [1, 1]
  faces := [(0, 1), (1, 2), (2, 3), (3, 0)]
  ftags := [1, 1, 1, 1]

/-- Helper for `chunksOf`, structurally recursive on a fuel argument (the
list length) so that it reduces definitionally. -/
def chunksAux {α : Type} (k : Nat) : Nat → List α → List (List α)
  | _, [] => []
  | 0, _ :: _ => []
  | fuel + 1, x :: xs =>
    (x :: List.take (k - 1) xs) :: chunksAux k fuel (List.drop (k - 1) xs)

/-- Rust's `slice::chunks(k)`: split a flat list into consecutive chunks of
`k` entries, the last chunk possibly shorter. -/
def chunksOf {α : Type} (k : Nat) (l : List α) : List (List α) :=
  chunksAux k l.length l

/-- The `add_verts` binding (`create_mesh!::add_verts`, `src/mesh.rs` lines
94-103): the coordinate array is validated to have `dim` columns, but the
flat data is then split into chunks of 3 (hard-coded) before being handed to
`SimplexMesh::add_verts`; the returned value is the list of per-vertex
coordinate slices passed on to the mesh. -/
def addVerts (dim : Nat) (coords : Arr2) : Except PyErr (List (List ℚ)) :=
  if coords.cols ≠ dim then .error (.valueError "Invalid dimension 1 for coords")
  else .ok (chunksOf 3 coords.data)

/-- The rows of a 2D array: its flat data split into chunks of `cols`. -/
def arrRows (a : Arr2) : List (List ℚ) := chunksOf a.cols a.data

/-- A connectivity array of vertex indices, as passed to `add_tris`,
`add_edges` and friends. -/
structure IdxArr2 where
  rows : Nat
  cols : Nat
  data : List Nat
  deriving DecidableEq, Repr

/-- The entity-insertion entry points of `tucanos::mesh::SimplexMesh` that the
`add_*` bindings can invoke, with the connectivity chunks and tags they are
given. -/
inductive MeshApiCall where
  | addTrisCall (elems : List (List Nat)) (tags : List Int)
  | addQuasCall (elems : List (List Nat)) (tags : List Int)
  | addEdgesCall (elems : List (List Nat)) (tags : List Int)
  deriving DecidableEq, Repr

/-- The `Mesh22::add_tris` binding (`src/mesh.rs` lines 985-1005): after the
shape checks it invokes `SimplexMesh::add_quas` on the 3-vertex chunks. -/
def mesh22AddTris (elems : IdxArr2) (tags : List Int) : Except PyErr MeshApiCall :=
  if elems.cols ≠ 3 then .error (.valueError "Invalid dimension 1 for elems")
  else if elems.rows ≠ tags.length then
    .error (.valueError "Invalid dimension 0 for elems / tags")
  else .ok (.addQuasCall (chunksOf 3 elems.data) tags)

/-- The `Mesh22::add_edges` binding (`src/mesh.rs` lines 1008-1028): after the
shape checks it invokes `SimplexMesh::add_quas` on the 2-vertex chunks. -/
def mesh22AddEdges (elems : IdxArr2) (tags : List Int) : Except PyErr MeshApiCall :=
  if elems.cols ≠ 2 then .error (.valueError "Invalid dimension 1 for elems")
  else if elems.rows ≠ tags.length then
    .error (.valueError "Invalid dimension 0 for elems / tags")
  else .ok (.addQuasCall (chunksOf 2 elems.data) tags)

/-- The `Mesh32::add_tris` binding (`src/mesh.rs` lines 889-909): after the
shape checks it invokes `SimplexMesh::add_quas` on the 3-vertex chunks. -/
def mesh32AddTris (elems : IdxArr2) (tags : List Int) : Except PyErr MeshApiCall :=
  if elems.cols ≠ 3 then .error (.valueError "Invalid dimension 1 for elems")
  else if elems.rows ≠ tags.length then
    .error (.valueError "Invalid dimension 0 for elems / tags")
  else .ok (.addQuasCall (chunksOf 3 elems.data) tags)

/-- The `Mesh32::add_edges` binding (`src/mesh.rs` lines 912-932): after the
shape checks it invokes `SimplexMesh::add_quas` on the 2-vertex chunks. -/
def mesh32AddEdges (elems : IdxArr2) (tags : List Int) : Except PyErr MeshApiCall :=
  if elems.cols ≠ 2 then .error (.valueError "Invalid dimension 1 for elems")
  else if elems.rows ≠ tags.length then
    .error (.valueError "Invalid dimension 0 for elems / tags")
  else .ok (.addQuasCall (chunksOf 2 elems.data) tags)

/-- The `Mesh33::add_tris` binding (`src/mesh.rs` lines 769-789): after the
shape checks it invokes `SimplexMesh::add_tris` on the 3-vertex chunks. -/
def mesh33AddTris (elems : IdxArr2) (tags : List Int) : Except PyErr MeshApiCall :=
  if elems.cols ≠ 3 then .error (.valueError "Invalid dimension 1 for elems")
  else if elems.rows ≠ tags.length then
    .error (.valueError "Invalid dimension 0 for elems / tags")
  else .ok (.addTrisCall (chunksOf 3 elems.data) tags)

theorem needsTag_true_iff (l : List Int) :
    needsTag l = true ↔ (l.length = 1 ∨ allSame l = false) := by
  simp [needsTag, Bool.or_eq_true, Bool.not_eq_true']

theorem meshCheck_eq_true_iff (m : Mesh2) :
    meshCheck m = true ↔ PositiveVols m ∧ BoundaryTagOk m := by
  unfold meshCheck PositiveVols BoundaryTagOk
  simp only [Bool.and_eq_true, List.all_eq_true, decide_eq_true_eq, beq_iff_eq]
  refine and_congr Iff.rfl (forall_congr' fun f => imp_congr_right fun _ => ?_)
  rw [Bool.eq_iff_iff, needsTag_true_iff]

theorem elemVol_swapTri (m : Mesh2) (e : Nat × Nat × Nat) :
    elemVol m (swapTri e) = -elemVol m e := by
  simp only [elemVol, swapTri]
  ring

theorem corruptElem_elems (m : Mesh2) (k : Nat) :
    (corruptElem m k).elems = m.elems.set k (swapTri (m.elems.getD k (0, 0, 0))) :=
  rfl

theorem elemVol_corrupt (m : Mesh2) (k : Nat) (e : Nat × Nat × Nat) :
    elemVol (corruptElem m k) e = elemVol m e :=
  rfl

/-- C7: constructing a `ParallelRemesher` with a `partition_type` string
outside the accepted set is rejected with a validation error before the
underlying partitioner is ever consulted (the error is independent of the
continuation `mk`), and each accepted string is mapped to the corresponding
partitioning strategy, after which construction proceeds with that strategy. -/
theorem partition_type_validated :
    (∀ (K R : Type) (mesh : K) (s : String) (n : Nat)
        (mk : K → PartitionKind → Except String R),
      s ∉ ["scotch", "metis_kway", "metis_recursive", "hilbert"] →
      newParallelRemesher mesh s n mk = .error (.valueError
        "Invalid partition type: allowed values are scotch, metis_kway, metis_recursive")) ∧
    (∀ n : Nat,
      parsePartitionType "scotch" n = .ok (.scotch n) ∧
      parsePartitionType "metis_kway" n = .ok (.metisKWay n) ∧
      parsePartitionType "metis_recursive" n = .ok (.metisRecursive n) ∧
      parsePartitionType "hilbert" n = .ok (.hilbert n)) ∧
    (∀ (K R : Type) (mesh : K) (s : String) (n : Nat)
        (mk : K → PartitionKind → Except String R) (pt : PartitionKind),
      parsePartitionType s n = .ok pt →
      newParallelRemesher mesh s n mk =
        match mk mesh pt with
        | .error msg => .error (.runtimeError msg)
        | .ok r => .ok r) := by
  refine ⟨?_, ?_, ?_⟩
  · intro K R mesh s n mk hs
    simp only [List.mem_cons, List.mem_singleton, not_or] at hs
    obtain ⟨h1, h2, h3, h4⟩ := hs
    simp [newParallelRemesher, parsePartitionType, h1, h2, h3, h4]
  · intro n
    refine ⟨?_, ?_, ?_, ?_⟩ <;> simp [parsePartitionType]
  · intro K R mesh s n mk pt hpt
    simp [newParallelRemesher, hpt]

/-- C7 witness: the string "hello" is outside the accepted set and the
constructor rejects it with the validation error, for a continuation that
would otherwise succeed. -/
theorem partition_type_validated_witness :
    "hello" ∉ ["scotch", "metis_kway", "metis_recursive", "hilbert"] ∧
    newParallelRemesher () "hello" 4 (fun _ _ => (.ok () : Except String Unit)) =
      .error (.valueError
        "Invalid partition type: allowed values are scotch, metis_kway, metis_recursive") :=
  ⟨by decide, partition_type_validated.1 Unit Unit () "hello" 4 _ (by decide)⟩

/-- C10 counterexample: the sequential and parallel remesh entry points do
not map every smoothing string to the same variant; at the concrete input
"laplacian" (one of the three strings of the claim) the two dispatches
disagree. -/
theorem smooth_type_dispatch_differs :
    "laplacian" ∈ ["laplacian", "laplacian2", "avro"] ∧
    seqSmoothType "laplacian" ≠ parSmoothType "laplacian" := by
  constructor
  · simp
  · simp [seqSmoothType, parSmoothType]

/-- C10 amended: the two entry points agree only on "avro"; "laplacian"
selects `Laplacian2` sequentially but `Laplacian` in parallel, and
"laplacian2" selects `Avro` sequentially but `Laplacian2` in parallel. -/
theorem smooth_type_dispatch_table :
    seqSmoothType "avro" = .ok .avro ∧
    parSmoothType "avro" = .ok .avro ∧
    seqSmoothType "laplacian" = .ok .laplacian2 ∧
    parSmoothType "laplacian" = .ok .laplacian ∧
    seqSmoothType "laplacian2" = .ok .avro ∧
    parSmoothType "laplacian2" = .ok .laplacian2 := by
  refine ⟨?_, ?_, ?_, ?_, ?_, ?_⟩ <;> simp [seqSmoothType, parSmoothType]

/-- C5: selecting `smooth_type = "nlopt"` always makes the call fail — the
sequential entry point panics before touching the remesher state, the
parallel entry point always returns an error with the state unchanged, and
neither dispatch ever produces a `SmoothingType` for "nlopt" (so no silent
fallback to another smoothing variant is possible). -/
theorem nlopt_always_fails :
    (∀ (R : Type) (st : R) (run : R → SmoothingType → R),
      seqRemesh st (some "nlopt") run = (st, .error .panicked)) ∧
    (∀ (R M : Type) (st : R) (nverts metricN : Nat) (m : Arr2)
        (run : R → SmoothingType → Arr2 → R × M),
      ∃ e, parRemesh st nverts metricN m (some "nlopt") run = (st, .error e)) ∧
    seqSmoothType "nlopt" = .error .panicked ∧
    parSmoothType "nlopt" = .error .panicked := by
  refine ⟨?_, ?_, ?_, ?_⟩
  · intro R st run
    simp [seqRemesh, seqSmoothType]
  · intro R M st nverts metricN m run
    by_cases h1 : m.rows = nverts
    · by_cases h2 : m.cols = metricN
      · exact ⟨.panicked, by simp [parRemesh, h1, h2, parSmoothType]⟩
      · exact ⟨.valueError "Invalid dimension 1", by simp [parRemesh, h1, h2]⟩
    · exact ⟨.valueError "Invalid dimension 0", by simp [parRemesh, h1]⟩
  · simp [seqSmoothType]
  · simp [parSmoothType]

/-- C3: every embedded entry point taking a per-vertex or per-element array
rejects a row/column mismatch with a validation error before the underlying
computation (the continuation) is consulted, leaving the mesh/remesher state
unchanged. -/
theorem shape_mismatch_fail_fast :
    (∀ (R : Type) (nverts metricN : Nat) (m : Arr2) (mk : Arr2 → Except String R),
      m.rows ≠ nverts ∨ m.cols ≠ metricN →
      ∃ msg, remesherNew nverts metricN m mk = .error (.valueError msg)) ∧
    (∀ (R M : Type) (st : R) (nverts metricN : Nat) (m : Arr2)
        (smooth : Option String) (run : R → SmoothingType → Arr2 → R × M),
      m.rows ≠ nverts ∨ m.cols ≠ metricN →
      ∃ msg, parRemesh st nverts metricN m smooth run =
        (st, .error (.valueError msg))) ∧
    (∀ (M : Type) (msh : M) (nelems : Nat) (arr : Arr2)
        (conv : M → Arr2 → M × Except String (List ℚ)),
      arr.rows ≠ nelems →
      elemDataToVertexData msh nelems arr conv =
        (msh, .error (.valueError "Invalid dimension 0"))) ∧
    (∀ (M : Type) (msh : M) (nverts : Nat) (arr : Arr2)
        (conv : M → Arr2 → M × Except String (List ℚ)),
      arr.rows ≠ nverts →
      vertexDataToElemData msh nverts arr conv =
        (msh, .error (.valueError "Invalid dimension 0"))) ∧
    (∀ (nverts metricN : Nat) (m : Arr2) (hmin hmax : ℚ) (nelems : Nat)
        (scale : Arr2 → ℚ → ℚ → Nat → Except String (List ℚ)),
      m.rows ≠ nverts ∨ m.cols ≠ metricN →
      ∃ msg, scaleMetric nverts metricN m hmin hmax nelems scale =
        .error (.valueError msg)) := by
  refine ⟨?_, ?_, ?_, ?_, ?_⟩
  · intro R nverts metricN m mk h
    by_cases h1 : m.rows = nverts
    · exact ⟨"Invalid dimension 1", by simp [remesherNew, h1, h.resolve_left (by simp [h1])]⟩
    · exact ⟨"Invalid dimension 0", by simp [remesherNew, h1]⟩
  · intro R M st nverts metricN m smooth run h
    by_cases h1 : m.rows = nverts
    · exact ⟨"Invalid dimension 1", by simp [parRemesh, h1, h.resolve_left (by simp [h1])]⟩
    · exact ⟨"Invalid dimension 0", by simp [parRemesh, h1]⟩
  · intro M msh nelems arr conv h
    simp [elemDataToVertexData, h]
  · intro M msh nverts arr conv h
    simp [vertexDataToElemData, h]
  · intro nverts metricN m hmin hmax nelems scale h
    by_cases h1 : m.rows = nverts
    · exact ⟨"Invalid dimension 1", by simp [scaleMetric, h1, h.resolve_left (by simp [h1])]⟩
    · exact ⟨"Invalid dimension 0", by simp [scaleMetric, h1]⟩

/-- C3 witness: a 2-row array against a 3-vertex (or 3-element) mesh is
rejected by each entry point with a validation error, with continuations
that would otherwise succeed and the state returned unchanged. -/
theorem shape_mismatch_fail_fast_witness :
    ((⟨2, 1, [0, 0]⟩ : Arr2).rows ≠ 3 ∨ (⟨2, 1, [0, 0]⟩ : Arr2).cols ≠ 1) ∧
    (∃ msg, remesherNew 3 1 ⟨2, 1, [0, 0]⟩
      (fun _ => (.ok 0 : Except String Nat)) = .error (.valueError msg)) ∧
    (∃ msg, parRemesh (0 : Nat) 3 1 ⟨2, 1, [0, 0]⟩ none
      (fun st _ _ => (st, (0 : Nat))) = (0, .error (.valueError msg))) ∧
    elemDataToVertexData (0 : Nat) 3 ⟨2, 1, [0, 0]⟩
      (fun msh _ => (msh, .ok [])) = (0, .error (.valueError "Invalid dimension 0")) ∧
    vertexDataToElemData (0 : Nat) 3 ⟨2, 1, [0, 0]⟩
      (fun msh _ => (msh, .ok [])) = (0, .error (.valueError "Invalid dimension 0")) ∧
    (∃ msg, scaleMetric 3 1 ⟨2, 1, [0, 0]⟩ 0 1 10
      (fun _ _ _ _ => .ok []) = .error (.valueError msg)) :=
  ⟨Or.inl (by decide),
   shape_mismatch_fail_fast.1 Nat 3 1 _ _ (Or.inl (by decide)),
   shape_mismatch_fail_fast.2.1 Nat Nat 0 3 1 _ none _ (Or.inl (by decide)),
   shape_mismatch_fail_fast.2.2.1 Nat 0 3 _ _ (by decide),
   shape_mismatch_fail_fast.2.2.2.1 Nat 0 3 _ _ (by decide),
   shape_mismatch_fail_fast.2.2.2.2 3 1 _ 0 1 10 _ (Or.inl (by decide))⟩

/-- C6: supplying `h_n` without `h_n_tags` to `curvature_metric` (both the
`Mesh33` and the `Mesh22` binding) is rejected with an error regardless of
the underlying computation (so nothing is computed), while supplying both
makes the call proceed into the underlying curvature-metric computation. -/
theorem curvature_metric_requires_hn_tags :
    (∀ (G : Type) (geom : G) (rh beta t : ℚ) (hmin hmax : Option ℚ)
        (h : List ℚ) (compute : G → ℚ → ℚ → ℚ → Option ℚ → Option ℚ →
          Option (List ℚ) → Option (List Int) → Except String (List ℚ)),
      mesh33CurvatureMetric geom rh beta t hmin hmax (some h) none compute =
        .error (.runtimeError "h_n_tags not given")) ∧
    (∀ (G : Type) (geom : G) (rh beta t : ℚ) (hmin hmax : Option ℚ)
        (h : List ℚ) (tags : List Int) (compute : G → ℚ → ℚ → ℚ → Option ℚ →
          Option ℚ → Option (List ℚ) → Option (List Int) → Except String (List ℚ)),
      mesh33CurvatureMetric geom rh beta t hmin hmax (some h) (some tags) compute =
        match compute geom rh beta t hmin hmax (some h) (some tags) with
        | .error e => .error (.runtimeError e)
        | .ok res => .ok ⟨res.length / 6, 6, res⟩) ∧
    (∀ (G : Type) (geom : G) (rh beta t : ℚ) (hmin : Option ℚ)
        (h : List ℚ) (compute : G → ℚ → ℚ → ℚ → Option (List ℚ) →
          Option (List Int) → Except String (List ℚ))
        (boundBelow : ℚ → List ℚ → List ℚ),
      mesh22CurvatureMetric geom rh beta t hmin (some h) none compute boundBelow =
        .error (.runtimeError "h_n_tags not given")) ∧
    (∀ (G : Type) (geom : G) (rh beta t : ℚ) (h : List ℚ) (tags : List Int)
        (compute : G → ℚ → ℚ → ℚ → Option (List ℚ) →
          Option (List Int) → Except String (List ℚ))
        (boundBelow : ℚ → List ℚ → List ℚ),
      mesh22CurvatureMetric geom rh beta t none (some h) (some tags) compute boundBelow =
        match compute geom rh beta t (some h) (some tags) with
        | .error e => .error (.runtimeError e)
        | .ok res => .ok ⟨res.length / 3, 3, res⟩) := by
  refine ⟨fun _ _ _ _ _ _ _ _ _ => rfl, fun _ _ _ _ _ _ _ _ _ _ => rfl,
    fun _ _ _ _ _ _ _ _ _ => rfl, ?_⟩
  intro G geom rh beta t h tags compute boundBelow
  cases hres : compute geom rh beta t (some h) (some tags) <;>
    simp [mesh22CurvatureMetric, hres]

/-- C8 (code bug): `Mesh22::add_verts` validates the coordinate array as
having 2 columns but then splits the flat data into chunks of 3, so the
vertex slices handed to the mesh are not the rows of the array (here 2 slices
of 3 floats instead of the 3 rows of 2), while the `dim = 3` instantiation
happens to pass the rows unchanged. -/
theorem add_verts_mesh22_wrong_chunks :
    addVerts 2 ⟨3, 2, [0, 1, 2, 3, 4, 5]⟩ = .ok [[0, 1, 2], [3, 4, 5]] ∧
    arrRows ⟨3, 2, [0, 1, 2, 3, 4, 5]⟩ = [[0, 1], [2, 3], [4, 5]] ∧
    ([[0, 1, 2], [3, 4, 5]] : List (List ℚ)) ≠ [[0, 1], [2, 3], [4, 5]] ∧
    addVerts 3 ⟨2, 3, [0, 1, 2, 3, 4, 5]⟩ =
      .ok (arrRows ⟨2, 3, [0, 1, 2, 3, 4, 5]⟩) := by
  refine ⟨rfl, rfl, ?_, rfl⟩
  simp

/-- C9 (code bug): the `add_tris` bindings of `Mesh22` and `Mesh32` (and
their `add_edges`) route to `SimplexMesh::add_quas`, the quadrangle
insertion, instead of the documented triangle/edge insertion used by
`Mesh33::add_tris`; the routed call is never the triangle one. -/
theorem add_tris_routes_to_add_quas :
    mesh22AddTris ⟨1, 3, [0, 1, 2]⟩ [1] = .ok (.addQuasCall [[0, 1, 2]] [1]) ∧
    mesh32AddTris ⟨1, 3, [0, 1, 2]⟩ [1] = .ok (.addQuasCall [[0, 1, 2]] [1]) ∧
    mesh22AddEdges ⟨1, 2, [0, 1]⟩ [1] = .ok (.addQuasCall [[0, 1]] [1]) ∧
    mesh32AddEdges ⟨1, 2, [0, 1]⟩ [1] = .ok (.addQuasCall [[0, 1]] [1]) ∧
    mesh33AddTris ⟨1, 3, [0, 1, 2]⟩ [1] = .ok (.addTrisCall [[0, 1, 2]] [1]) ∧
    (∀ (el : List (List Nat)) (tg : List Int),
      MeshApiCall.addQuasCall el tg ≠ MeshApiCall.addTrisCall el tg) :=
  ⟨rfl, rfl, rfl, rfl, rfl, fun _ _ h => MeshApiCall.noConfusion h⟩

/-- C2: `check()` succeeds iff every element has strictly positive volume and
the boundary-tag invariant holds (every boundary face is tagged, every face
between different element tags is tagged, no other face is tagged), and
corrupting the orientation of any one element of a valid mesh makes
`check()` fail. -/
theorem check_iff_valid_and_corrupt_fails :
    (∀ m : Mesh2, meshCheck m = true ↔ PositiveVols m ∧ BoundaryTagOk m) ∧
    (∀ (m : Mesh2) (k : Nat), k < m.elems.length → meshCheck m = true →
      meshCheck (corruptElem m k) = false) := by
  refine ⟨meshCheck_eq_true_iff, ?_⟩
  intro m k hk hchk
  have hpos : PositiveVols m := ((meshCheck_eq_true_iff m).mp hchk).1
  have hv : 0 < elemVol m (m.elems.getD k (0, 0, 0)) := by
    apply hpos
    rw [List.getD_eq_getElem m.elems (0, 0, 0) hk]
    exact List.getElem_mem hk
  have hmem : swapTri (m.elems.getD k (0, 0, 0)) ∈ (corruptElem m k).elems := by
    rw [corruptElem_elems]
    have hk2 : k < (m.elems.set k (swapTri (m.elems.getD k (0, 0, 0)))).length := by
      simpa using hk
    have hset := List.getElem_set_self (h := hk2)
    have hin := List.getElem_mem hk2
    rwa [hset] at hin
  cases hb : meshCheck (corruptElem m k) with
  | false => rfl
  | true =>
    exfalso
    have hpos2 := ((meshCheck_eq_true_iff _).mp hb).1
    have hlt := hpos2 _ hmem
    rw [elemVol_corrupt, elemVol_swapTri] at hlt
    linarith

/-- The unit square fixture passes the validity check: direct evaluation of
the embedded `check`. -/
theorem sqMesh_check : meshCheck sqMesh = true := by
  have hpos : PositiveVols sqMesh := by
    intro e he
    simp only [sqMesh, List.mem_cons, List.not_mem_nil, or_false] at he
    rcases he with h | h <;> subst h <;>
      norm_num [elemVol, vert, sqMesh, List.getD]
  have htag : BoundaryTagOk sqMesh := by
    unfold BoundaryTagOk
    decide
  exact (meshCheck_eq_true_iff sqMesh).mpr ⟨hpos, htag⟩

/-- C2 witness: the unit square mesh passes the check and corrupting the
orientation of its first element makes the check fail. -/
theorem check_iff_valid_and_corrupt_fails_witness :
    0 < sqMesh.elems.length ∧ meshCheck sqMesh = true ∧
    meshCheck (corruptElem sqMesh 0) = false :=
  ⟨by decide, sqMesh_check,
   check_iff_valid_and_corrupt_fails.2 sqMesh 0 (by decide) sqMesh_check⟩

theorem weighted_sum_replicate (m : Mesh2) (v : Nat) (c : ℚ) :
    ∀ es : List (Nat × Nat × Nat),
      (((es.zip (List.replicate es.length c)).filter fun ef => hasVert ef.1 v).map
          fun ef => elemVol m ef.1 * ef.2).sum =
        ((es.filter fun e => hasVert e v).map fun e => elemVol m e).sum * c
  | [] => by simp
  | e :: es => by
    have ih := weighted_sum_replicate m v c es
    cases h : hasVert e v
    · simpa [List.replicate_succ, List.filter_cons, h] using ih
    · simp only [List.length_cons, List.replicate_succ, List.zip_cons_cons,
        List.filter_cons, h, if_true, List.map_cons, List.sum_cons]
      rw [ih]
      ring

theorem elemToVertField_const (m : Mesh2) (c : ℚ) (v : Nat)
    (hW : vertTotalWeight m v ≠ 0) :
    elemToVertField m (List.replicate m.elems.length c) v = c := by
  unfold elemToVertField
  rw [weighted_sum_replicate]
  unfold vertTotalWeight at hW ⊢
  rw [mul_comm, mul_div_assoc, div_self hW, mul_one]

theorem getD_map_range (fn : Nat → ℚ) (n i : Nat) (h : i < n) :
    ((List.range n).map fn).getD i 0 = fn i := by
  rw [List.getD_eq_getElem?_getD, List.getElem?_map, List.getElem?_range h]
  rfl

/-- C4: converting a constant per-element field to the vertices and back to
the elements returns the same constant field, for every mesh in which each
vertex has a nonzero total incident volume and all element vertex indices
are in range. -/
theorem constant_field_roundtrip (m : Mesh2) (c : ℚ)
    (hW : ∀ v, v < m.verts.length → vertTotalWeight m v ≠ 0)
    (hidx : ∀ e ∈ m.elems, e.1 < m.verts.length ∧ e.2.1 < m.verts.length ∧
      e.2.2 < m.verts.length) :
    vertexDataToElemDataField m
        (elemDataToVertexDataField m (List.replicate m.elems.length c)) =
      List.replicate m.elems.length c := by
  rw [List.eq_replicate_iff]
  constructor
  · simp [vertexDataToElemDataField]
  · intro b hb
    unfold vertexDataToElemDataField at hb
    obtain ⟨e, he, rfl⟩ := List.mem_map.mp hb
    obtain ⟨h1, h2, h3⟩ := hidx e he
    unfold elemDataToVertexDataField
    rw [getD_map_range _ _ _ h1, getD_map_range _ _ _ h2, getD_map_range _ _ _ h3,
      elemToVertField_const m c _ (hW _ h1), elemToVertField_const m c _ (hW _ h2),
      elemToVertField_const m c _ (hW _ h3)]
    ring

/-- Every vertex of the unit square fixture has nonzero total incident
volume (each triangle has area 1/2). -/
theorem sqMesh_weights :
    ∀ v, v < sqMesh.verts.length → vertTotalWeight sqMesh v ≠ 0 := by
  intro v hv
  have hv4 : v < 4 := by simpa [sqMesh] using hv
  interval_cases v <;>
    simp +decide [vertTotalWeight, hasVert, elemVol, vert, sqMesh,
      List.filter, List.getD]

/-- C4 witness: the round trip of the constant field 5 on the unit square
fixture returns the constant field 5. -/
theorem constant_field_roundtrip_witness :
    (∀ v, v < sqMesh.verts.length → vertTotalWeight sqMesh v ≠ 0) ∧
    vertexDataToElemDataField sqMesh
        (elemDataToVertexDataField sqMesh (List.replicate sqMesh.elems.length 5)) =
      List.replicate sqMesh.elems.length 5 :=
  ⟨sqMesh_weights, constant_field_roundtrip sqMesh 5 sqMesh_weights (by decide)⟩

/-- C1 counterexample: with `p = 0` the exponent is `-2/d`, not `0`: in
dimension 2 a vertex metric of size 2 (volume `2 ^ 2 = 4`) is rescaled by
`4 ^ (-1) = 1/4` to size `1/2`, so `p = Some(0)` does not leave the metric
unchanged. -/
theorem hessian_to_metric_p_zero_rescales :
    hessianToMetric 2 1 [(2 : ℝ)] (some 0) = .ok [1 / 2] ∧
    ((1 : ℝ) / 2) ≠ 2 := by
  constructor
  · unfold hessianToMetric
    rw [if_neg (by simp)]
    have hv : (hessianToMetricVert 2 (some 0) ⟨2⟩).h = 1 / 2 := by
      unfold hessianToMetricVert IsoMetric.scale IsoMetric.vol hessianExponent
      norm_num
    simp [hv]
  · norm_num

/-- C1 amended: `hessian_to_metric` validates the row count and rescales each
vertex metric by `vol ^ e` with `e = -2/(2p+d)` whenever `p` is given —
including `p = 0`, where `e = -2/d` — and only `p = None` gives exponent `0`
and returns the metric field unchanged. -/
theorem hessian_to_metric_exponent_law (d nverts : Nat) (hs : List ℝ) (q : Nat)
    (hlen : hs.length = nverts) :
    hessianToMetric d nverts hs none = .ok hs ∧
    hessianToMetric d nverts hs (some q) =
      .ok (hs.map fun h => (h ^ d) ^ (-2 / (2 * q + d) : ℝ) * h) := by
  constructor
  · unfold hessianToMetric
    rw [if_neg (by simp [hlen])]
    have hfun : (fun h : ℝ => (hessianToMetricVert d none ⟨h⟩).h) = fun h => h := by
      funext h
      simp [hessianToMetricVert, IsoMetric.scale, IsoMetric.vol, hessianExponent,
        Real.rpow_zero]
    rw [hfun]
    simp
  · unfold hessianToMetric
    rw [if_neg (by simp [hlen])]
    have hfun : (fun h : ℝ => (hessianToMetricVert d (some q) ⟨h⟩).h) =
        fun h => (h ^ d) ^ (-2 / (2 * q + d) : ℝ) * h := by
      funext h
      simp [hessianToMetricVert, IsoMetric.scale, IsoMetric.vol, hessianExponent]
    rw [hfun]

/-- C1 amended witness: a one-vertex metric field of size 2 in dimension 2 is
returned unchanged when `p` is `None`. -/
theorem hessian_to_metric_exponent_law_witness :
    ([(2 : ℝ)].length = 1) ∧
    hessianToMetric 2 1 [(2 : ℝ)] none = .ok [(2 : ℝ)] :=
  ⟨by simp, (hessian_to_metric_exponent_law 2 1 [(2 : ℝ)] 0 (by simp)).1⟩

end Pytucanos
